import Mathlib

/-!
Shallow embedding of `ssm_tools/resolver.py` (aws-ssm-tools): the instance
and container inventory collectors and keyword matchers. Python dicts that
preserve insertion order are modelled as association lists; `sys.exit(1)`
paths are modelled as dedicated result constructors; the paginated AWS APIs
are modelled as explicit oracle functions passed in as arguments.
-/

namespace SsmResolver

/-! ## String primitives

The Python string operations used by the resolver, re-defined by structural
recursion over the character list so that concrete instances reduce inside
the kernel (the library versions recurse on UTF-8 byte positions). -/

/-- Python `str.lower()` (the strings involved are ASCII). -/
def pyLower (s : String) : String :=
  String.mk (s.data.map Char.toLower)

/-- Python `str.startswith(pre)`. -/
def beginsWith (s pre : String) : Bool :=
  pre.data.isPrefixOf s.data

/-- Python `str.endswith(suf)`. -/
def finishesWith (s suf : String) : Bool :=
  suf.data.reverse.isPrefixOf s.data.reverse

/-- Python `str.split(sep)` for a one-character separator, on char lists. -/
def splitChar (sep : Char) : List Char → List (List Char)
  | [] => [[]]
  | c :: rest =>
    let r := splitChar sep rest
    if c == sep then [] :: r else (c :: r.headD []) :: r.tail

/-- Python `str.split(sep)` for a one-character separator. -/
def pySplit (s : String) (sep : Char) : List String :=
  (splitChar sep s.data).map String.mk

/-! ## Instance data model -/

/-- One entry of the `items` mapping built by `InstanceResolver.get_list`:
`InstanceId`, `InstanceName`, `HostName`, `Addresses`, and the
`AvailabilityZone` key that is only added by the EC2 enrichment step
(hence an `Option`). -/
structure InstanceRecord where
  instanceId : String
  instanceName : String
  hostName : String
  addresses : List String
  availabilityZone : Option String := none
deriving Repr, DecidableEq

/-- The `items` dict of `get_list`, as an insertion-ordered association list. -/
abbrev ItemMap := List (String × InstanceRecord)

/-- An EC2 tag (`{"Key": ..., "Value": ...}`). -/
structure Ec2Tag where
  key : String
  value : String
deriving Repr, DecidableEq

/-- The fields of one instance object returned by `describe_instances`
that `get_list` reads. Optional IPs model the `_try_append` guards. -/
structure Ec2Instance where
  instanceId : String
  privateIpAddress : Option String
  publicIpAddress : Option String
  availabilityZone : String
  tags : List Ec2Tag
deriving Repr, DecidableEq

/-- A botocore `ClientError`: `response["Error"]["Code"]` and
`response["Error"]["Message"]`. -/
structure ClientErr where
  code : String
  message : String
deriving Repr, DecidableEq

/-- One reservation of a `describe_instances` page: its list of instances. -/
abbrev Reservation := List Ec2Instance

/-- One page of the `describe_instances` paginator: `page["Reservations"]`. -/
abbrev DescribePage := List Reservation

/-! ## Instance collector, step 2 (EC2 enrichment with repair loop) -/

/-- `_try_append(_list, _dict, _key)`: append the value when the key is present. -/
def tryAppend (l : List String) (o : Option String) : List String :=
  match o with
  | some s => l ++ [s]
  | none => l

/-- The `for tag in instance.get("Tags", [])` loop: the last tag whose key is
`Name` and whose value is truthy (non-empty) wins; otherwise keep `init`. -/
def nameFromTags (init : String) (tags : List Ec2Tag) : String :=
  tags.foldl (fun n t => if t.key == "Name" && t.value != "" then t.value else n) init

/-- The body of the `for instance in reservation["Instances"]` loop applied to
one matched record: reset `Addresses` to private then public IP, set the
availability zone, and overwrite the name from the `Name` tag. -/
def updateRecord (r : InstanceRecord) (inst : Ec2Instance) : InstanceRecord :=
  { r with
    addresses := tryAppend (tryAppend [] inst.privateIpAddress) inst.publicIpAddress
    availabilityZone := some inst.availabilityZone
    instanceName := nameFromTags r.instanceName inst.tags }

/-- Process one described instance: `if instance_id not in items: continue`,
otherwise update the record in place. -/
def applyInstance (items : ItemMap) (inst : Ec2Instance) : ItemMap :=
  if items.any (fun p => p.1 == inst.instanceId) then
    items.map (fun p => if p.1 == inst.instanceId then (p.1, updateRecord p.2 inst) else p)
  else items

/-- Process one `describe_instances` page: both nested `for` loops over
reservations and instances. -/
def processPage (items : ItemMap) (page : DescribePage) : ItemMap :=
  page.foldl (fun acc res => res.foldl applyInstance acc) items

/-- Lower-case hex digit or decimal digit: the character class `[0-9a-f]`. -/
def isIdChar (c : Char) : Bool :=
  ('0' ≤ c && c ≤ '9') || ('a' ≤ c && c ≤ 'f')

/-- `re.findall("i-[0-9a-f]+", message)`: left-to-right, non-overlapping,
greedy scan for maximal `i-<hex>` substrings. -/
def findIdsAux : List Char → List String
  | [] => []
  | 'i' :: '-' :: rest =>
    let hex := rest.takeWhile isIdChar
    if hex.isEmpty then findIdsAux ('-' :: rest)
    else String.mk ('i' :: '-' :: hex) :: findIdsAux (rest.dropWhile isIdChar)
  | _ :: rest => findIdsAux rest
termination_by l => l.length
decreasing_by
  · simp
  · simp only [List.length_cons]
    have h := (List.dropWhile_sublist isIdChar (l := rest)).length_le
    omega
  · simp

/-- `re.findall("i-[0-9a-f]+", message)` on a string. -/
def findIds (msg : String) : List String :=
  findIdsAux msg.data

/-- Outcome of the EC2 enrichment phase of `get_list`: a normal `return items`
from inside the page loop, a re-raised `ClientError`, or the degraded return
of the step-1 records after the retry budget is exhausted. -/
inductive Step2Result where
  | returned (items : ItemMap)
  | raised (e : ClientErr)
  | degraded (items : ItemMap)
deriving Repr, DecidableEq

/-- The `describe_instances` paginator as an oracle: for a batch of instance
ids it either raises a `ClientError` or yields a non-empty sequence of pages
(a boto3 paginator always yields at least one page), given as head page plus
remaining pages. -/
abbrev DescribeApi := List String → Except ClientErr (DescribePage × List DescribePage)

/-- The `while tries:` consistency-repair loop of `get_list`, lines 68-113.
On success the code processes the reservations of the first page and then
executes `return items` from inside the page loop, leaving the remaining
pages unconsumed. On `InvalidInstanceID.NotFound` the ids found in the error
message are removed from the batch and the loop retries with `tries - 1`;
any other `ClientError` is re-raised. (Python computes the shrunken batch as
`list(set(old) - set(removed))`, whose order is unspecified; we model it as
an order-preserving filter, and no theorem below depends on batch order.)
The second component counts calls made to the describe API. -/
def repairLoop (api : DescribeApi) (items : ItemMap) : List String → Nat → Step2Result × Nat
  | _, 0 => (.degraded items, 0)
  | batch, n + 1 =>
    match api batch with
    | .ok (page, _restPages) => (.returned (processPage items page), 1)
    | .error e =>
      if e.code != "InvalidInstanceID.NotFound" then (.raised e, 1)
      else
        let removed := findIds e.message
        let r := repairLoop api items (batch.filter (fun i => !removed.contains i)) n
        (r.1, r.2 + 1)

/-- `ec2_instance_ids = list(filter(lambda x: x.startswith("i-"), items))`:
the step-1 ids that look like EC2 ids; managed-instance `mi-` ids are skipped. -/
def ec2BatchOf (items : ItemMap) : List String :=
  (items.map Prod.fst).filter (fun s => beginsWith s "i-")

/-- Step 2 of `InstanceResolver.get_list`: run the repair loop with the
initial EC2-id batch and a budget of `tries = 5`. -/
def getListStep2 (api : DescribeApi) (items : ItemMap) : Step2Result × Nat :=
  repairLoop api items (ec2BatchOf items) 5

/-! ## Instance keyword matcher -/

/-- `[a-f0-9]+` after a literal `i-`: the tail of the instance-id pattern. -/
def isIdCore : List Char → Bool
  | 'i' :: '-' :: rest => !rest.isEmpty && rest.all isIdChar
  | _ => false

/-- `re.match("^m?i-[a-f0-9]+$", instance)`: an optional leading `m`,
then `i-`, then one or more lower-case hex digits, anchored at both ends. -/
def isInstanceIdKeyword (s : String) : Bool :=
  match s.data with
  | 'm' :: rest => isIdCore rest
  | l => isIdCore l

/-- The membership test of `resolve_instance`:
`instance.lower() in [item["HostName"].lower(), item["InstanceName"].lower()] + item["Addresses"]`.
Note that the keyword is lower-cased before being compared to the addresses. -/
def instanceMatches (kw : String) (r : InstanceRecord) : Bool :=
  pyLower kw == pyLower r.hostName || pyLower kw == pyLower r.instanceName
    || r.addresses.contains (pyLower kw)

/-- The `for instance_id in items` loop of `resolve_instance`: the ids whose
record matches the keyword, in insertion order. -/
def collectMatches (items : ItemMap) (kw : String) : List String :=
  items.foldl (fun acc p => if instanceMatches kw p.2 then acc ++ [p.1] else acc) []

/-- Result of `resolve_instance`: either the returned pair
`(instance_id, record)` — where `none` stands for the empty dict `{}` used by
the fast path and the zero-match sentinel — or the ambiguity path that warns
with the matched ids and calls `sys.exit(1)`. -/
inductive IResult where
  | result (id : String) (record : Option InstanceRecord)
  | exitAmbiguous (matchedIds : List String)
deriving Repr, DecidableEq

/-- The part of `resolve_instance` after the instance-id fast path: scan the
collected items for keyword matches and apply the zero/one/many policy. -/
def resolveInstanceCore (items : ItemMap) (kw : String) : IResult :=
  let instances := collectMatches items kw
  if instances.isEmpty then .result "" none
  else if instances.length == 1 then
    .result (instances.headD "") (items.lookup (instances.headD ""))
  else .exitAmbiguous instances

/-- `InstanceResolver.resolve_instance`, with `get_list` passed as a thunk.
The second component counts how many times `get_list` was invoked. -/
def resolveInstance (getList : Unit → ItemMap) (kw : String) : IResult × Nat :=
  if isInstanceIdKeyword kw then (.result kw none, 0)
  else (resolveInstanceCore (getList ()) kw, 1)

/-! ## Container data model and collector -/

/-- One entry of `container["managedAgents"]`. -/
structure ManagedAgent where
  name : String
  lastStatus : String
deriving Repr, DecidableEq

/-- One entry of `container["networkInterfaces"]`. -/
structure NetworkInterface where
  privateIpv4Address : String
deriving Repr, DecidableEq

/-- The fields of one container object of a described task that the collector
reads; `managedAgents` is `none` when the key is absent. -/
structure RawContainer where
  name : String
  taskArn : String
  managedAgents : Option (List ManagedAgent)
  networkInterfaces : List NetworkInterface
deriving Repr, DecidableEq

/-- The fields of one task object returned by `describe_tasks` that the
collector reads. -/
structure RawTask where
  taskArn : String
  clusterArn : String
  group : String
  containers : List RawContainer
deriving Repr, DecidableEq

/-- The record appended to `self.containers` by `add_container`. -/
structure ContainerRecord where
  cluster_name : String
  task_id : String
  cluster_arn : String
  task_arn : String
  group_name : String
  container_name : String
  container_ip : String
deriving Repr, DecidableEq

/-- The `self._tasks` dict, keyed by task ARN. -/
abbrev TaskMap := List (String × RawTask)

/-- `self._tasks[task["taskArn"]] = task`: dict assignment (overwrite or append). -/
def taskMapSet (m : TaskMap) (k : String) (t : RawTask) : TaskMap :=
  if m.any (fun p => p.1 == k) then m.map (fun p => if p.1 == k then (k, t) else p)
  else m ++ [(k, t)]

/-- Placeholder for a `self._tasks` lookup miss; in Python that would raise
`KeyError`, but `get_list` registers each task before visiting its containers,
so the lookup in `add_container` always succeeds. -/
def defaultTask : RawTask :=
  { taskArn := "", clusterArn := "", group := "", containers := [] }

/-- `ContainerResolver.add_container`: parse
`container["taskArn"].split(":")[-1].split("/")` into
`[_, cluster_name, task_id]` and combine with the owning task's cluster ARN
and group and the container's first network interface. -/
def mkContainerRecord (tasks : TaskMap) (c : RawContainer) : ContainerRecord :=
  let parsed := pySplit ((pySplit c.taskArn ':').getLastD "") '/'
  let task := (tasks.lookup c.taskArn).getD defaultTask
  { cluster_name := parsed.getD 1 ""
    task_id := parsed.getD 2 ""
    cluster_arn := task.clusterArn
    task_arn := c.taskArn
    group_name := task.group
    container_name := c.name
    container_ip := (c.networkInterfaces.headD ⟨""⟩).privateIpv4Address }

/-- The condition of the `for agent in container["managedAgents"]` loop:
`agent["name"] == "ExecuteCommandAgent" and agent["lastStatus"] == "RUNNING"`. -/
def agentQualifies (a : ManagedAgent) : Bool :=
  a.name == "ExecuteCommandAgent" && a.lastStatus == "RUNNING"

/-- The `for container in task["containers"]` loop of `get_list`: skip
containers without a `managedAgents` key; otherwise call `add_container` once
per qualifying agent (the Python loop has no `break`). -/
def containersOfTask (tasks : TaskMap) (t : RawTask) : List ContainerRecord :=
  t.containers.foldl
    (fun acc c =>
      match c.managedAgents with
      | none => acc
      | some agents =>
        acc ++ (agents.filter agentQualifies).map (fun _ => mkContainerRecord tasks c))
    []

/-- The `for task in response["tasks"]` loop of `get_list` over the described
tasks of every surviving cluster, in collection order: register each task in
`self._tasks`, then collect its qualifying containers. -/
def collectTasks : TaskMap → List RawTask → List ContainerRecord
  | _, [] => []
  | m, t :: ts =>
    let m2 := taskMapSet m t.taskArn t
    containersOfTask m2 t ++ collectTasks m2 ts

/-- The cluster-filter condition of `ContainerResolver.get_list`:
`(args.cluster.startswith("arn:") and cluster == args.cluster) or cluster.endswith("/" + args.cluster)`. -/
def clusterMatchesFilter (filt c : String) : Bool :=
  (beginsWith filt "arn:" && c == filt) || finishesWith c ("/" ++ filt)

/-- The `for cluster in clusters: ... break` filter loop: keep only the first
matching cluster, or nothing. -/
def filterClusters (clusters : List String) (filt : String) : List String :=
  match clusters.find? (clusterMatchesFilter filt) with
  | some c => [c]
  | none => []

/-- `ContainerResolver.get_list` with the cluster listing and per-cluster
task listing/description supplied as oracles: apply the cluster filter when
`args.cluster` is truthy, return `[]` (after a warning) when no cluster
survives, and otherwise collect the qualifying containers of every described
task of every surviving cluster, in order. -/
def containerGetList (clusters : List String) (filt : String)
    (tasksFor : String → List RawTask) : List ContainerRecord :=
  let cs := if filt != "" then filterClusters clusters filt else clusters
  if cs.isEmpty then [] else collectTasks [] (cs.flatMap tasksFor)

/-! ## Container keyword matcher -/

/-- The membership test of `resolve_container`: the keyword equals one of the
four fields `group_name`, `task_id`, `container_name`, `container_ip`
(exact, case-sensitive). -/
def keywordHitsContainer (k : String) (c : ContainerRecord) : Bool :=
  k == c.group_name || k == c.task_id || k == c.container_name || k == c.container_ip

/-- The inner `for keyword in keywords` loop of `resolve_container`: the
container survives iff no keyword fails the membership test (on failure the
Python code sets `container = {}` and breaks, so the record is skipped). -/
def surviveLoop (c : ContainerRecord) : List String → Bool
  | [] => true
  | k :: ks => if !keywordHitsContainer k c then false else surviveLoop c ks

/-- The outer `for container in containers` loop of `resolve_container`:
the candidate list, in collection order. -/
def resolveCandidates (containers : List ContainerRecord) (keywords : List String) :
    List ContainerRecord :=
  containers.foldl (fun acc c => if surviveLoop c keywords then acc ++ [c] else acc) []

/-- A record value never reached on the single-candidate path (the list has
length one there); used only to make `headD` total. -/
def emptyContainerRecord : ContainerRecord :=
  { cluster_name := "", task_id := "", cluster_arn := "", task_arn := ""
    group_name := "", container_name := "", container_ip := "" }

/-- Result of `resolve_container`: the selected record, or one of the three
`sys.exit(1)` paths (no containers at all, no candidate, several candidates —
the last carrying the candidate list that the code warns about and prints). -/
inductive CResult where
  | selected (c : ContainerRecord)
  | exitNoContainers
  | exitNoMatch (keywords : List String)
  | exitAmbiguous (candidates : List ContainerRecord)
deriving Repr, DecidableEq

/-- `ContainerResolver.resolve_container` on an already-collected container
list: exit when the list is empty, filter by all keywords, then apply the
zero/one/many policy. -/
def resolveContainer (containers : List ContainerRecord) (keywords : List String) : CResult :=
  if containers.isEmpty then .exitNoContainers
  else
    let candidates := resolveCandidates containers keywords
    if candidates.isEmpty then .exitNoMatch keywords
    else if candidates.length == 1 then .selected (candidates.headD emptyContainerRecord)
    else .exitAmbiguous candidates

/-! ## Helper lemmas -/

/-- The append-accumulator fold used by both matchers is a filter-then-map. -/
theorem foldl_push_filter_map {α β : Type} (p : α → Bool) (g : α → β) :
    ∀ (l : List α) (acc : List β),
      l.foldl (fun a x => if p x then a ++ [g x] else a) acc = acc ++ (l.filter p).map g
  | [], acc => by simp
  | x :: l, acc => by
    cases h : p x with
    | true => simp [List.filter_cons, h, foldl_push_filter_map p g l (acc ++ [g x])]
    | false => simp [List.filter_cons, h, foldl_push_filter_map p g l acc]

/-- Specialization of the fold-is-filter lemma without projection. -/
theorem foldl_push_filter {α : Type} (p : α → Bool) :
    ∀ (l acc : List α),
      l.foldl (fun a x => if p x then a ++ [x] else a) acc = acc ++ l.filter p
  | [], acc => by simp
  | x :: l, acc => by
    cases h : p x with
    | true => simp [List.filter_cons, h, foldl_push_filter p l (acc ++ [x])]
    | false => simp [List.filter_cons, h, foldl_push_filter p l acc]

/-- The early-exit keyword loop is the conjunction over all keywords. -/
theorem surviveLoop_eq_all (c : ContainerRecord) :
    ∀ ks : List String, surviveLoop c ks = ks.all (fun k => keywordHitsContainer k c)
  | [] => rfl
  | k :: ks => by
    cases h : keywordHitsContainer k c with
    | true => simp [surviveLoop, h, surviveLoop_eq_all c ks]
    | false => simp [surviveLoop, h]

/-- The candidate loop of `resolve_container` is a filter by `surviveLoop`. -/
theorem resolveCandidates_eq_filter (containers : List ContainerRecord)
    (keywords : List String) :
    resolveCandidates containers keywords
      = containers.filter (fun c => surviveLoop c keywords) := by
  unfold resolveCandidates
  rw [foldl_push_filter (fun c => surviveLoop c keywords) containers []]
  simp

/-- The match loop of `resolve_instance` collects the ids of the matching
entries, in order. -/
theorem collectMatches_eq_filter_map (items : ItemMap) (kw : String) :
    collectMatches items kw
      = (items.filter (fun p => instanceMatches kw p.2)).map Prod.fst := by
  unfold collectMatches
  rw [foldl_push_filter_map (fun p => instanceMatches kw p.2) Prod.fst items []]
  simp

/-- Association-list lookup finds the stored value when keys are distinct. -/
theorem lookup_eq_some_of_mem_nodup {β : Type} :
    ∀ (l : List (String × β)) (a : String) (b : β),
      (l.map Prod.fst).Nodup → (a, b) ∈ l → l.lookup a = some b
  | [], _, _, _, h => by cases h
  | (x, y) :: l, a, b, hnd, hmem => by
    rcases List.mem_cons.mp hmem with heq | htail
    · obtain ⟨rfl, rfl⟩ := Prod.mk.injEq .. ▸ heq
      simp [List.lookup]
    · have hax : a ≠ x := by
        intro h
        subst h
        have : a ∈ l.map Prod.fst := List.mem_map.mpr ⟨(a, b), htail, rfl⟩
        exact (List.nodup_cons.mp (by simpa using hnd)).1 this
      have hnd2 : (l.map Prod.fst).Nodup := (List.nodup_cons.mp (by simpa using hnd)).2
      simp [List.lookup, beq_eq_false_iff_ne.mpr hax]
      exact lookup_eq_some_of_mem_nodup l a b hnd2 htail

/-! ## Claim theorems -/

/-- C1: for every collected container set and keyword list, the candidate set
of the container matcher is exactly the containers for which every keyword
equals one of group name, task id, container name, or container IP
(exact, case-sensitive); with no keywords the candidate set is the whole
collected set. -/
theorem container_candidates_spec :
    ∀ (containers : List ContainerRecord) (keywords : List String),
      resolveCandidates containers keywords
        = containers.filter (fun c => keywords.all (fun k => keywordHitsContainer k c))
      ∧ (∀ c, c ∈ resolveCandidates containers keywords ↔
          c ∈ containers ∧ ∀ k ∈ keywords,
            k = c.group_name ∨ k = c.task_id ∨ k = c.container_name ∨ k = c.container_ip)
      ∧ resolveCandidates containers [] = containers := by
  intro containers keywords
  have hall : ∀ ks, (fun c => surviveLoop c ks) = fun c => ks.all (fun k => keywordHitsContainer k c) := by
    intro ks
    funext c
    exact surviveLoop_eq_all c ks
  refine ⟨?_, ?_, ?_⟩
  · rw [resolveCandidates_eq_filter, hall]
  · intro c
    rw [resolveCandidates_eq_filter, hall]
    rw [List.mem_filter]
    constructor
    · rintro ⟨hmem, hkw⟩
      refine ⟨hmem, ?_⟩
      intro k hk
      have := (List.all_eq_true.mp hkw) k hk
      simpa [keywordHitsContainer, or_assoc] using this
    · rintro ⟨hmem, hkw⟩
      refine ⟨hmem, List.all_eq_true.mpr ?_⟩
      intro k hk
      simpa [keywordHitsContainer, or_assoc] using hkw k hk
  · rw [resolveCandidates_eq_filter]
    simp [surviveLoop]

/-- The instance-matching predicate as the claim words it: host name or
instance name compared case-insensitively, addresses compared exactly
against the keyword as given. -/
def claimStatedInstanceMatches (kw : String) (r : InstanceRecord) : Bool :=
  pyLower kw == pyLower r.hostName || pyLower kw == pyLower r.instanceName
    || r.addresses.contains kw

/-- An inventory with one record whose only address is the upper-case
string `ABC`. -/
def c2Record : InstanceRecord :=
  { instanceId := "i-0abc", instanceName := "", hostName := "", addresses := ["ABC"] }

/-- A one-record collected set exhibiting the address-comparison divergence. -/
def c2Items : ItemMap := [("i-0abc", c2Record)]

/-- C2 counterexample: with keyword `ABC` exactly one record's address list
contains the keyword (exact comparison, as the claim states), yet
`resolve_instance` returns the empty sentinel `("", {})` instead of that
record, because the code compares the addresses against the lower-cased
keyword `abc`. -/
theorem instance_resolve_address_case_counterexample :
    (c2Items.filter (fun p => claimStatedInstanceMatches "ABC" p.2)).length = 1
    ∧ resolveInstance (fun _ => c2Items) "ABC" = (.result "" none, 1) := by
  constructor
  · decide
  · decide

/-- C2 (amended): for a collected instance set (distinct ids, as a Python
dict guarantees) and a keyword not matching the instance-id pattern,
`resolve_instance` makes one collection call and: returns the matched
`(id, record)` pair when exactly one record matches — where a record matches
if its host name or instance name equals the keyword case-insensitively, or
one of its addresses equals the lower-cased keyword verbatim —, returns the
empty sentinel `("", {})` when no record matches, and exits non-zero
(warning with the matched ids) when several match. -/
theorem instance_resolve_characterization :
    ∀ (items : ItemMap) (kw : String),
      isInstanceIdKeyword kw = false →
      (items.map Prod.fst).Nodup →
      (items.filter (fun p => instanceMatches kw p.2) = [] →
          resolveInstance (fun _ => items) kw = (.result "" none, 1))
      ∧ (∀ q, items.filter (fun p => instanceMatches kw p.2) = [q] →
          resolveInstance (fun _ => items) kw = (.result q.1 (some q.2), 1))
      ∧ (1 < (items.filter (fun p => instanceMatches kw p.2)).length →
          resolveInstance (fun _ => items) kw
            = (.exitAmbiguous
                ((items.filter (fun p => instanceMatches kw p.2)).map Prod.fst), 1)) := by
  intro items kw hkw hnd
  have hcm := collectMatches_eq_filter_map items kw
  refine ⟨?_, ?_, ?_⟩
  · intro h0
    simp [resolveInstance, hkw, resolveInstanceCore, hcm, h0]
  · intro q hq
    have hqmem : q ∈ items := by
      have hqf : q ∈ items.filter (fun p => instanceMatches kw p.2) := by
        rw [hq]
        exact List.mem_singleton.mpr rfl
      exact List.mem_of_mem_filter hqf
    have hlook : items.lookup q.1 = some q.2 := by
      have := lookup_eq_some_of_mem_nodup items q.1 q.2 hnd
      exact this (by simpa using hqmem)
    simp [resolveInstance, hkw, resolveInstanceCore, hcm, hq, hlook]
  · intro hgt
    have h1 : ((items.filter (fun p => instanceMatches kw p.2)).map Prod.fst).isEmpty = false := by
      rcases hv : items.filter (fun p => instanceMatches kw p.2) with _ | ⟨a, t⟩
      · rw [hv] at hgt; simp at hgt
      · rw [hv]; simp
    have h2 : (((items.filter (fun p => instanceMatches kw p.2)).map Prod.fst).length == 1)
        = false := by
      simp only [List.length_map, beq_eq_false_iff_ne]
      omega
    simp [resolveInstance, hkw, resolveInstanceCore, hcm, h1, h2]
    omega

/-- C2 witness: at a concrete single-match inventory the amended theorem
yields the matched pair. -/
theorem instance_resolve_characterization_witness :
    resolveInstance
        (fun _ => [("i-0aa1",
          { instanceId := "i-0aa1", instanceName := "web1", hostName := "ip-10-0-0-1"
            addresses := ["10.0.0.1"] })]) "WEB1"
      = (.result "i-0aa1"
          (some { instanceId := "i-0aa1", instanceName := "web1", hostName := "ip-10-0-0-1"
                  addresses := ["10.0.0.1"] }), 1) :=
  (instance_resolve_characterization
      [("i-0aa1",
        { instanceId := "i-0aa1", instanceName := "web1", hostName := "ip-10-0-0-1"
          addresses := ["10.0.0.1"] })] "WEB1" (by decide) (by decide)).2.1
    ("i-0aa1",
      { instanceId := "i-0aa1", instanceName := "web1", hostName := "ip-10-0-0-1"
        addresses := ["10.0.0.1"] }) (by decide)

/-- C3: a keyword matching the instance-id pattern `^m?i-[a-f0-9]+$` is
returned as the instance id immediately, with zero collection calls, for
every possible collector. -/
theorem instance_id_fast_path :
    ∀ (getList : Unit → ItemMap) (kw : String),
      isInstanceIdKeyword kw = true →
      resolveInstance getList kw = (.result kw none, 0) := by
  intro g kw h
  simp [resolveInstance, h]

/-- C3 witness: the fast path at the concrete keyword `i-abc123`. -/
theorem instance_id_fast_path_witness :
    resolveInstance (fun _ => []) "i-abc123" = (.result "i-abc123" none, 0) :=
  instance_id_fast_path (fun _ => []) "i-abc123" (by decide)

/-- C10: on the fast path the record component of the returned pair is the
empty mapping (`{}` in the source, `none` here), whatever the inventory. -/
theorem instance_id_fast_path_empty_record :
    ∀ (getList : Unit → ItemMap) (kw : String),
      isInstanceIdKeyword kw = true →
      (resolveInstance getList kw).1 = IResult.result kw none := by
  intro g kw h
  simp [resolveInstance, h]

/-- C10 witness: the record component is empty at the concrete keyword
`mi-00ff`, even though the inventory holds a record for that very id. -/
theorem instance_id_fast_path_empty_record_witness :
    (resolveInstance
        (fun _ => [("mi-00ff",
          { instanceId := "mi-00ff", instanceName := "db", hostName := "db-host"
            addresses := ["10.9.9.9"] })]) "mi-00ff").1
      = IResult.result "mi-00ff" none :=
  instance_id_fast_path_empty_record
    (fun _ => [("mi-00ff",
      { instanceId := "mi-00ff", instanceName := "db", hostName := "db-host"
        addresses := ["10.9.9.9"] })]) "mi-00ff" (by decide)

/-- The break-on-first-match filter loop keeps exactly the first matching
cluster. -/
theorem filterClusters_eq_take_filter (clusters : List String) (filt : String) :
    filterClusters clusters filt
      = (clusters.filter (clusterMatchesFilter filt)).take 1 := by
  induction clusters with
  | nil => rfl
  | cons c cs ih =>
    unfold filterClusters at ih ⊢
    cases h : clusterMatchesFilter filt c
    · simp only [List.find?_cons, h, List.filter_cons]
      exact ih
    · simp [List.find?_cons, h, List.filter_cons]

/-- C5: a supplied cluster filter keeps only the first cluster that either
equals the filter verbatim (when the filter starts with `arn:`) or ends in
`/` followed by the filter; on the two-cluster example the filter `prod`
keeps exactly the prod cluster, and a filter matching nothing makes the
collector return the empty result set. -/
theorem cluster_filter_spec :
    (∀ (clusters : List String) (filt : String),
      filterClusters clusters filt
        = (clusters.filter (fun c =>
            (beginsWith filt "arn:" && c == filt) || finishesWith c ("/" ++ filt))).take 1)
    ∧ filterClusters
        ["arn:aws:ecs:us-east-1:123:cluster/prod", "arn:aws:ecs:us-east-1:123:cluster/staging"]
        "prod" = ["arn:aws:ecs:us-east-1:123:cluster/prod"]
    ∧ (∀ tasksFor : String → List RawTask,
        containerGetList
          ["arn:aws:ecs:us-east-1:123:cluster/prod", "arn:aws:ecs:us-east-1:123:cluster/staging"]
          "nonexistent" tasksFor = []) := by
  refine ⟨?_, by decide, ?_⟩
  · intro clusters filt
    exact filterClusters_eq_take_filter clusters filt
  · intro tasksFor
    have h : filterClusters
        ["arn:aws:ecs:us-east-1:123:cluster/prod", "arn:aws:ecs:us-east-1:123:cluster/staging"]
        "nonexistent" = [] := by decide
    simp [containerGetList, h]

/-- Concrete container records used to instantiate theorems. -/
def cxApp : ContainerRecord :=
  { cluster_name := "c1", task_id := "t1", cluster_arn := "arn:c", task_arn := "arn:t"
    group_name := "service:web", container_name := "app", container_ip := "10.0.0.7" }

/-- A second container of the same task, differing in name and IP. -/
def cxSidecar : ContainerRecord :=
  { cxApp with container_name := "sidecar", container_ip := "10.0.0.8" }

/-- C1 witness: with no keywords the candidate set is the full collected set,
at a concrete two-container collection. -/
theorem container_candidates_spec_witness :
    resolveCandidates [cxApp, cxSidecar] [] = [cxApp, cxSidecar] :=
  (container_candidates_spec [cxApp, cxSidecar] ["t1"]).2.2

/-- C6: whenever more than one record matches, both matchers take the
ambiguity path: they never select a record and never return one, but exit
non-zero carrying the enumerated candidates that the warning prints. -/
theorem ambiguous_match_exits :
    (∀ (items : ItemMap) (kw : String),
       isInstanceIdKeyword kw = false →
       1 < (collectMatches items kw).length →
       (resolveInstance (fun _ => items) kw).1
         = IResult.exitAmbiguous (collectMatches items kw))
    ∧ (∀ (containers : List ContainerRecord) (kws : List String),
       1 < (resolveCandidates containers kws).length →
       resolveContainer containers kws
         = CResult.exitAmbiguous (resolveCandidates containers kws)) := by
  constructor
  · intro items kw hkw hgt
    have h1 : (collectMatches items kw).isEmpty = false := by
      rcases h : collectMatches items kw with _ | ⟨a, t⟩
      · rw [h] at hgt; simp at hgt
      · rfl
    have h2 : ((collectMatches items kw).length == 1) = false := by
      simp only [beq_eq_false_iff_ne]
      omega
    simp [resolveInstance, hkw, resolveInstanceCore, h1, h2]
  · intro containers kws hgt
    have hcne : containers.isEmpty = false := by
      cases containers with
      | nil => simp [resolveCandidates] at hgt
      | cons a t => rfl
    have h1 : (resolveCandidates containers kws).isEmpty = false := by
      rcases h : resolveCandidates containers kws with _ | ⟨a, t⟩
      · rw [h] at hgt; simp at hgt
      · rfl
    have h2 : ((resolveCandidates containers kws).length == 1) = false := by
      simp only [beq_eq_false_iff_ne]
      omega
    simp [resolveContainer, hcne, h1, h2]

/-- A two-record inventory in which the keyword `web` matches both instance
names. -/
def c6Items : ItemMap :=
  [("i-01",
    { instanceId := "i-01", instanceName := "web", hostName := "h1", addresses := ["10.0.0.1"] }),
   ("i-02",
    { instanceId := "i-02", instanceName := "web", hostName := "h2", addresses := ["10.0.0.2"] })]

/-- C6 witness: both matchers exit with the enumerated candidates on concrete
two-way ambiguous inputs. -/
theorem ambiguous_match_exits_witness :
    (resolveInstance (fun _ => c6Items) "web").1
        = IResult.exitAmbiguous (collectMatches c6Items "web")
    ∧ resolveContainer [cxApp, cxSidecar] ["t1"]
        = CResult.exitAmbiguous (resolveCandidates [cxApp, cxSidecar] ["t1"]) :=
  ⟨ambiguous_match_exits.1 c6Items "web" (by decide) (by decide),
   ambiguous_match_exits.2 [cxApp, cxSidecar] ["t1"] (by decide)⟩

/-- Membership in the per-task container fold: a record comes from the
accumulator, or it is `add_container` applied (under the current task map)
to a container of the list with a qualifying agent. -/
theorem mem_containersFold (tasks : TaskMap) :
    ∀ (cs : List RawContainer) (acc : List ContainerRecord) (r : ContainerRecord),
      r ∈ cs.foldl
        (fun acc c =>
          match c.managedAgents with
          | none => acc
          | some agents =>
            acc ++ (agents.filter agentQualifies).map (fun _ => mkContainerRecord tasks c))
        acc →
      r ∈ acc
        ∨ ∃ c ∈ cs, (∃ agents, c.managedAgents = some agents ∧
            ∃ a ∈ agents, agentQualifies a = true) ∧ r = mkContainerRecord tasks c
  | [], acc, r, h => Or.inl h
  | c :: cs, acc, r, h => by
    rcases mem_containersFold tasks cs _ r h with hacc | ⟨c2, hc2, rest⟩
    · rcases hm : c.managedAgents with _ | agents
      · simp only [hm] at hacc
        exact Or.inl hacc
      · simp only [hm] at hacc
        rcases List.mem_append.mp hacc with hl | hr
        · exact Or.inl hl
        · obtain ⟨a, ha, heq⟩ := List.mem_map.mp hr
          obtain ⟨hamem, haq⟩ := List.mem_filter.mp ha
          exact Or.inr ⟨c, List.mem_cons_self c cs, ⟨agents, hm, a, hamem, haq⟩, heq.symm⟩
    · exact Or.inr ⟨c2, List.mem_cons_of_mem c hc2, rest⟩

/-- Membership in `collectTasks`: every produced record is `add_container`
applied, under some state of the task map, to a container of one of the
tasks that carries a qualifying managed agent. -/
theorem mem_collectTasks :
    ∀ (m : TaskMap) (tasks : List RawTask) (r : ContainerRecord),
      r ∈ collectTasks m tasks →
      ∃ t ∈ tasks, ∃ c ∈ t.containers,
        (∃ agents, c.managedAgents = some agents ∧
          ∃ a ∈ agents, agentQualifies a = true)
        ∧ ∃ tm : TaskMap, r = mkContainerRecord tm c
  | _, [], _, h => absurd h (List.not_mem_nil _)
  | m, t :: ts, r, h => by
    rcases List.mem_append.mp h with hhead | htail
    · rcases mem_containersFold (taskMapSet m t.taskArn t) t.containers [] r hhead with
        habs | ⟨c, hc, hqual, heq⟩
      · cases habs
      · exact ⟨t, List.mem_cons_self t ts, c, hc, hqual, taskMapSet m t.taskArn t, heq⟩
    · obtain ⟨t2, ht2, rest⟩ := mem_collectTasks (taskMapSet m t.taskArn t) ts r htail
      exact ⟨t2, List.mem_cons_of_mem t ht2, rest⟩

/-- C8: every record produced by the container collector is `add_container`
applied to a container — of a described task of a surviving cluster — that,
at collection time, carries a managed agent named `ExecuteCommandAgent`
whose last-observed status is `RUNNING`; in particular the record's
container name, task ARN and IP are those of that container, so containers
without such a running agent never contribute a record. -/
theorem container_record_requires_running_agent :
    ∀ (clusters : List String) (filt : String) (tasksFor : String → List RawTask)
      (r : ContainerRecord),
      r ∈ containerGetList clusters filt tasksFor →
      ∃ cl ∈ (if filt != "" then filterClusters clusters filt else clusters),
        ∃ t ∈ tasksFor cl, ∃ c ∈ t.containers,
          (∃ agents, c.managedAgents = some agents ∧
            ∃ a ∈ agents, a.name = "ExecuteCommandAgent" ∧ a.lastStatus = "RUNNING")
          ∧ (∃ tm : TaskMap, r = mkContainerRecord tm c)
          ∧ r.container_name = c.name ∧ r.task_arn = c.taskArn
          ∧ r.container_ip = (c.networkInterfaces.headD ⟨""⟩).privateIpv4Address := by
  intro clusters filt tasksFor r h
  unfold containerGetList at h
  set cs := if filt != "" then filterClusters clusters filt else clusters with hcs
  by_cases hempty : cs.isEmpty
  · rw [if_pos hempty] at h
    cases h
  · rw [if_neg hempty] at h
    obtain ⟨t, ht, c, hc, ⟨agents, hag, a, ha, haq⟩, tm, heq⟩ :=
      mem_collectTasks [] (cs.flatMap tasksFor) r h
    obtain ⟨cl, hcl, htf⟩ := List.mem_flatMap.mp ht
    have hq : a.name = "ExecuteCommandAgent" ∧ a.lastStatus = "RUNNING" := by
      have := haq
      simp [agentQualifies] at this
      exact this
    refine ⟨cl, hcl, t, htf, c, hc, ⟨agents, hag, a, ha, hq.1, hq.2⟩, ⟨tm, heq⟩, ?_, ?_, ?_⟩
      <;> rw [heq] <;> rfl

/-- A described task with one execute-command-capable container and one
container whose agent is not running. -/
def c8Task : RawTask :=
  { taskArn := "arn:aws:ecs:us-east-1:123:task/prodcluster/0f00"
    clusterArn := "arn:aws:ecs:us-east-1:123:cluster/prodcluster"
    group := "service:web"
    containers := [
      { name := "app", taskArn := "arn:aws:ecs:us-east-1:123:task/prodcluster/0f00"
        managedAgents := some [{ name := "ExecuteCommandAgent", lastStatus := "RUNNING" }]
        networkInterfaces := [{ privateIpv4Address := "10.0.0.7" }] },
      { name := "noagent", taskArn := "arn:aws:ecs:us-east-1:123:task/prodcluster/0f00"
        managedAgents := some [{ name := "ExecuteCommandAgent", lastStatus := "STOPPED" }]
        networkInterfaces := [{ privateIpv4Address := "10.0.0.8" }] }] }

/-- The record the collector produces for the `app` container of `c8Task`. -/
def c8Record : ContainerRecord :=
  { cluster_name := "prodcluster", task_id := "0f00"
    cluster_arn := "arn:aws:ecs:us-east-1:123:cluster/prodcluster"
    task_arn := "arn:aws:ecs:us-east-1:123:task/prodcluster/0f00"
    group_name := "service:web", container_name := "app", container_ip := "10.0.0.7" }

/-- C8 witness: the produced record of a concrete collection is
`add_container` of a container with a running execute-command agent, with
matching name, task ARN and IP. -/
theorem container_record_requires_running_agent_witness :
    ∃ cl ∈ (if ("" : String) != "" then
        filterClusters ["arn:aws:ecs:us-east-1:123:cluster/prodcluster"] ""
      else ["arn:aws:ecs:us-east-1:123:cluster/prodcluster"]),
      ∃ t ∈ [c8Task], ∃ c ∈ t.containers,
        (∃ agents, c.managedAgents = some agents ∧
          ∃ a ∈ agents, a.name = "ExecuteCommandAgent" ∧ a.lastStatus = "RUNNING")
        ∧ (∃ tm : TaskMap, c8Record = mkContainerRecord tm c)
        ∧ c8Record.container_name = c.name ∧ c8Record.task_arn = c.taskArn
        ∧ c8Record.container_ip = (c.networkInterfaces.headD ⟨""⟩).privateIpv4Address :=
  container_record_requires_running_agent
    ["arn:aws:ecs:us-east-1:123:cluster/prodcluster"] "" (fun _ => [c8Task]) c8Record
    (by decide)

/-- Updating one described instance never changes the key sequence. -/
theorem map_fst_applyInstance (items : ItemMap) (inst : Ec2Instance) :
    (applyInstance items inst).map Prod.fst = items.map Prod.fst := by
  unfold applyInstance
  by_cases h : items.any (fun p => p.1 == inst.instanceId)
  · rw [if_pos h, List.map_map]
    apply List.map_congr_left
    intro p _
    by_cases hp : p.1 = inst.instanceId <;> simp [hp]
  · rw [if_neg h]

/-- Folding the instance updates of a reservation preserves the key sequence. -/
theorem map_fst_foldl_applyInstance :
    ∀ (l : List Ec2Instance) (items : ItemMap),
      (l.foldl applyInstance items).map Prod.fst = items.map Prod.fst
  | [], _ => rfl
  | i :: l, items => by
    rw [List.foldl_cons, map_fst_foldl_applyInstance l (applyInstance items i),
      map_fst_applyInstance]

/-- Processing a whole describe page preserves the key sequence. -/
theorem map_fst_processPage :
    ∀ (page : DescribePage) (items : ItemMap),
      (processPage items page).map Prod.fst = items.map Prod.fst
  | [], _ => rfl
  | res :: page, items => by
    unfold processPage at map_fst_processPage ⊢
    rw [List.foldl_cons, map_fst_processPage page (res.foldl applyInstance items),
      map_fst_foldl_applyInstance]

/-- Shape of the repair-loop outcomes: a normal return is a processed page on
top of the step-1 records, a degraded return is the step-1 records verbatim,
and a re-raised error is never the repairable `InvalidInstanceID.NotFound`. -/
theorem repairLoop_result (api : DescribeApi) (items : ItemMap) :
    ∀ (fuel : Nat) (batch : List String),
      (∀ m, (repairLoop api items batch fuel).1 = .returned m →
        ∃ page, m = processPage items page)
      ∧ (∀ m, (repairLoop api items batch fuel).1 = .degraded m → m = items)
      ∧ (∀ e, (repairLoop api items batch fuel).1 = .raised e →
          e.code ≠ "InvalidInstanceID.NotFound")
  | 0, batch => by
    refine ⟨?_, ?_, ?_⟩
    · intro m h
      cases h
    · intro m h
      cases h
      rfl
    · intro e h
      cases h
  | fuel + 1, batch => by
    cases hapi : api batch with
    | ok pr =>
      obtain ⟨page, rest⟩ := pr
      refine ⟨?_, ?_, ?_⟩ <;> intro x h <;> simp only [repairLoop, hapi] at h
      · cases h
        exact ⟨page, rfl⟩
      · cases h
      · cases h
    | error e0 =>
      by_cases hcode : (e0.code != "InvalidInstanceID.NotFound") = true
      · refine ⟨?_, ?_, ?_⟩ <;> intro x h <;>
          simp only [repairLoop, hapi, if_pos hcode] at h
        · cases h
        · cases h
        · cases h
          exact bne_iff_ne.mp hcode
      · have ih := repairLoop_result api items fuel
          (batch.filter (fun i => !(findIds e0.message).contains i))
        refine ⟨?_, ?_, ?_⟩ <;> intro x h <;>
          simp only [repairLoop, hapi, if_neg hcode] at h
        · exact ih.1 x h
        · exact ih.2.1 x h
        · exact ih.2.2 x h

/-- The repair loop makes at most `fuel` describe-service calls. -/
theorem repairLoop_calls_le (api : DescribeApi) (items : ItemMap) :
    ∀ (fuel : Nat) (batch : List String),
      (repairLoop api items batch fuel).2 ≤ fuel
  | 0, _ => Nat.le_refl 0
  | fuel + 1, batch => by
    cases hapi : api batch with
    | ok pr =>
      simp only [repairLoop, hapi]
      omega
    | error e0 =>
      by_cases hcode : (e0.code != "InvalidInstanceID.NotFound") = true
      · simp only [repairLoop, hapi, if_pos hcode]
        omega
      · have ih := repairLoop_calls_le api items fuel
          (batch.filter (fun i => !(findIds e0.message).contains i))
        simp only [repairLoop, hapi, if_neg hcode]
        omega

/-- When every call fails with the repairable error, the loop burns its whole
budget and degrades to the unchanged step-1 records. -/
theorem repairLoop_all_notfound (api : DescribeApi) (items : ItemMap)
    (hall : ∀ b, ∃ e, api b = .error e ∧ e.code = "InvalidInstanceID.NotFound") :
    ∀ (fuel : Nat) (batch : List String),
      repairLoop api items batch fuel = (.degraded items, fuel)
  | 0, _ => rfl
  | fuel + 1, batch => by
    obtain ⟨e0, hapi, hcode⟩ := hall batch
    have hb : (e0.code != "InvalidInstanceID.NotFound") = false := by
      simp [hcode]
    have ih := repairLoop_all_notfound api items hall fuel
      (batch.filter (fun i => !(findIds e0.message).contains i))
    simp only [repairLoop, hapi, hb, Bool.false_eq_true, if_false, ih]

/-- Any error the loop raises was literally returned by one of the describe
calls: the loop never fabricates or alters a raised error. -/
theorem repairLoop_raised_src (api : DescribeApi) (items : ItemMap) :
    ∀ (fuel : Nat) (batch : List String) (e : ClientErr),
      (repairLoop api items batch fuel).1 = .raised e → ∃ b, api b = .error e
  | 0, _, _ => by
    intro h
    cases h
  | fuel + 1, batch, e => by
    intro h
    cases hapi : api batch with
    | ok pr =>
      obtain ⟨page, rest⟩ := pr
      simp only [repairLoop, hapi] at h
      cases h
    | error e0 =>
      by_cases hcode : (e0.code != "InvalidInstanceID.NotFound") = true
      · simp only [repairLoop, hapi, if_pos hcode] at h
        cases h
        exact ⟨batch, hapi⟩
      · simp only [repairLoop, hapi, if_neg hcode] at h
        exact repairLoop_raised_src api items fuel
          (batch.filter (fun i => !(findIds e0.message).contains i)) e h

/-- C4: the consistency-repair loop calls the describe service at most 5
times; on an `InvalidInstanceID.NotFound` error the ids matching
`i-[0-9a-f]+` found in the error message are removed from the request batch
before the retry; an error of any other code propagates unchanged — when the
call of an attempt fails with a non-repairable error the loop immediately
ends raising exactly that error after that single call, a raised error never
has the repairable code, and every raised error is one the API returned
verbatim; and when every attempt fails with the repairable error the
collector degrades after 5 calls, returning the step-1 records unchanged. -/
theorem repair_loop_spec :
    ∀ (api : DescribeApi) (items : ItemMap),
      (getListStep2 api items).2 ≤ 5
      ∧ (∀ e, (getListStep2 api items).1 = .raised e →
          e.code ≠ "InvalidInstanceID.NotFound")
      ∧ (∀ (batch : List String) (e : ClientErr) (n : Nat),
          api batch = .error e → e.code = "InvalidInstanceID.NotFound" →
          repairLoop api items batch (n + 1)
            = ((repairLoop api items
                  (batch.filter (fun i => !(findIds e.message).contains i)) n).1,
               (repairLoop api items
                  (batch.filter (fun i => !(findIds e.message).contains i)) n).2 + 1))
      ∧ ((∀ b, ∃ e, api b = .error e ∧ e.code = "InvalidInstanceID.NotFound") →
          getListStep2 api items = (.degraded items, 5))
      ∧ (∀ (batch : List String) (e : ClientErr) (n : Nat),
          api batch = .error e → e.code ≠ "InvalidInstanceID.NotFound" →
          repairLoop api items batch (n + 1) = (.raised e, 1))
      ∧ (∀ e, (getListStep2 api items).1 = .raised e → ∃ b, api b = .error e) := by
  intro api items
  refine ⟨?_, ?_, ?_, ?_, ?_, ?_⟩
  · exact repairLoop_calls_le api items 5 (ec2BatchOf items)
  · exact (repairLoop_result api items 5 (ec2BatchOf items)).2.2
  · intro batch e n hapi hcode
    have hb : (e.code != "InvalidInstanceID.NotFound") = false := by
      simp [hcode]
    simp only [repairLoop, hapi, hb, Bool.false_eq_true, if_false]
  · intro hall
    exact repairLoop_all_notfound api items hall 5 (ec2BatchOf items)
  · intro batch e n hapi hcode
    have hb : (e.code != "InvalidInstanceID.NotFound") = true := bne_iff_ne.mpr hcode
    simp only [repairLoop, hapi, if_pos hb]
  · exact repairLoop_raised_src api items 5 (ec2BatchOf items)

/-- An oracle that always fails with the repairable error. -/
def c4Api : DescribeApi :=
  fun _ => .error
    { code := "InvalidInstanceID.NotFound"
      message := "The instance ID 'i-00ab' does not exist" }

/-- A one-record step-1 inventory for the repair-loop witness. -/
def c4Items : ItemMap :=
  [("i-00ab",
    { instanceId := "i-00ab", instanceName := "", hostName := "h", addresses := ["10.0.0.3"] })]

/-- An oracle that always fails with a non-repairable error. -/
def c4BadApi : DescribeApi :=
  fun _ => .error { code := "AccessDenied", message := "not authorized" }

/-- C4 witness: under an always-NotFound oracle the collector makes 5 calls
and degrades to the unchanged step-1 records; under an oracle failing with a
non-repairable code the collector raises that very error after one call. -/
theorem repair_loop_spec_witness :
    (getListStep2 c4Api c4Items).2 ≤ 5
    ∧ getListStep2 c4Api c4Items = (.degraded c4Items, 5)
    ∧ getListStep2 c4BadApi c4Items
        = (.raised { code := "AccessDenied", message := "not authorized" }, 1) :=
  ⟨(repair_loop_spec c4Api c4Items).1,
   (repair_loop_spec c4Api c4Items).2.2.2.1 (fun _ =>
     ⟨{ code := "InvalidInstanceID.NotFound"
        message := "The instance ID 'i-00ab' does not exist" }, rfl, rfl⟩),
   (repair_loop_spec c4BadApi c4Items).2.2.2.2.1 (ec2BatchOf c4Items)
     { code := "AccessDenied", message := "not authorized" } 4 rfl (by decide)⟩

/-- C9: the EC2 enrichment phase neither adds nor removes records — whatever
the describe oracle returns, a returned or degraded mapping has exactly the
step-1 key sequence. -/
theorem step2_preserves_key_set :
    ∀ (api : DescribeApi) (items m : ItemMap),
      (getListStep2 api items).1 = .returned m ∨ (getListStep2 api items).1 = .degraded m →
      m.map Prod.fst = items.map Prod.fst := by
  intro api items m h
  rcases h with h | h
  · obtain ⟨page, rfl⟩ := (repairLoop_result api items 5 (ec2BatchOf items)).1 m h
    exact map_fst_processPage page items
  · rw [(repairLoop_result api items 5 (ec2BatchOf items)).2.1 m h]

/-- A described instance matching the first entry of `c9Items`. -/
def c9Inst : Ec2Instance :=
  { instanceId := "i-01f", privateIpAddress := some "10.1.1.1", publicIpAddress := none
    availabilityZone := "eu-west-1a", tags := [{ key := "Name", value := "alpha" }] }

/-- A two-record step-1 inventory (one EC2 id, one managed-instance id). -/
def c9Items : ItemMap :=
  [("i-01f",
    { instanceId := "i-01f", instanceName := "", hostName := "h", addresses := ["10.1.1.1"] }),
   ("mi-22",
    { instanceId := "mi-22", instanceName := "", hostName := "m", addresses := ["10.1.1.2"] })]

/-- The mapping after enrichment of `c9Items` by `c9Inst`. -/
def c9Updated : ItemMap :=
  [("i-01f",
    { instanceId := "i-01f", instanceName := "alpha", hostName := "h"
      addresses := ["10.1.1.1"], availabilityZone := some "eu-west-1a" }),
   ("mi-22",
    { instanceId := "mi-22", instanceName := "", hostName := "m", addresses := ["10.1.1.2"] })]

/-- C9 witness: at a concrete one-page enrichment the key sequence of the
returned mapping equals the step-1 key sequence. -/
theorem step2_preserves_key_set_witness :
    c9Updated.map Prod.fst = c9Items.map Prod.fst :=
  step2_preserves_key_set (fun _ => .ok ([[c9Inst]], [])) c9Items c9Updated
    (Or.inl (by decide))

/-- Page-1 instance of the pagination scenario. -/
def c7Inst1 : Ec2Instance :=
  { instanceId := "i-aaa", privateIpAddress := some "10.0.0.1"
    publicIpAddress := some "198.51.100.1", availabilityZone := "us-east-1a"
    tags := [{ key := "Name", value := "web-a" }] }

/-- Page-2 instance of the pagination scenario. -/
def c7Inst2 : Ec2Instance :=
  { instanceId := "i-bbb", privateIpAddress := some "10.0.0.2", publicIpAddress := none
    availabilityZone := "us-east-1b", tags := [{ key := "Name", value := "web-b" }] }

/-- Step-1 record of the page-2 instance, which should be enriched. -/
def c7RecB : InstanceRecord :=
  { instanceId := "i-bbb", instanceName := "", hostName := "host-b", addresses := ["10.0.0.2"] }

/-- Step-1 inventory of the pagination scenario. -/
def c7Items : ItemMap :=
  [("i-aaa",
    { instanceId := "i-aaa", instanceName := "", hostName := "host-a"
      addresses := ["10.0.0.1"] }),
   ("i-bbb", c7RecB)]

/-- A describe oracle answering with two pages, one instance each. -/
def c7Api : DescribeApi :=
  fun _ => .ok ([[c7Inst1]], [[[c7Inst2]]])

/-- C7: `return items` sits inside the `for reservations in response_iterator`
loop (resolver.py line 100), so only the first describe page is processed:
with a two-page response the page-1 instance is enriched but the page-2
instance keeps its bare step-1 record (no availability zone, no name tag, the
inventory address), although the claim requires every result page to be
merged. -/
theorem describe_second_page_dropped :
    getListStep2 c7Api c7Items
      = (.returned
          [("i-aaa",
            { instanceId := "i-aaa", instanceName := "web-a", hostName := "host-a"
              addresses := ["10.0.0.1", "198.51.100.1"]
              availabilityZone := some "us-east-1a" }),
           ("i-bbb", c7RecB)], 1) := by
  decide

end SsmResolver
